import Mathlib

/-!
Verification of the AutoDesktop vision service against its specification.

Shallow embedding of the two Python modules of the repository:

* `AutoDesktopVisionApi/app.py` — the Flask endpoint `POST /detect`
  (`detect_objects`), modelled as a pure function from the parsed JSON
  request body to an HTTP outcome.  A fault raised outside the handler's
  `try` block propagates out of the handler; this is modelled by a
  distinguished `unhandledFault` outcome.

* `AutoDesktopVisionApi/train_yolo.py` — the training launcher
  (`train_model`), modelled as a pure function from an environment
  (file existence, accelerator availability, outcomes of the delegated
  calls to the YOLO library) to the list of printed messages together
  with a flag recording whether the delegated training call was made.
-/

namespace AutoDesktop

/-- Single-quote character, used to assemble Python diagnostic texts. -/
def sq : String := String.singleton (Char.ofNat 39)

/-- Prefix test on character lists, mirroring how Python scans a string. -/
def charListEqPre : List Char → List Char → Bool
  | [], _ => true
  | _ :: _, [] => false
  | a :: as, b :: bs => a == b && charListEqPre as bs

/-- Substring occurrence test on character lists. -/
def charListHasSub (pat : List Char) : List Char → Bool
  | [] => charListEqPre pat []
  | l@(_ :: rest) => charListEqPre pat l || charListHasSub pat rest

/-- Python substring membership `pat in s`. -/
def strContains (s pat : String) : Bool :=
  charListHasSub pat.data s.data

/-- Python `s.lower()`. -/
def strLower (s : String) : String :=
  String.mk (s.data.map Char.toLower)

/-- Parsed JSON value of a request body, as Python represents it after
`request.json`: strings, integers, booleans, `None`, lists, and dicts as
association lists (a Python dict has at most one entry per key; the
association-list model reads the first entry, which agrees with that). -/
inductive PyVal where
  | str : String → PyVal
  | int : Int → PyVal
  | bool : Bool → PyVal
  | none : PyVal
  | list : List PyVal → PyVal
  | dict : List (String × PyVal) → PyVal

/-- Python type name of a value, as it appears in `TypeError` texts. -/
def tyName : PyVal → String
  | .str _ => "str"
  | .int _ => "int"
  | .bool _ => "bool"
  | .none => "NoneType"
  | .list _ => "list"
  | .dict _ => "dict"

/-- Text of the `TypeError` raised by `key in v` on a non-container. -/
def containsErrMsg (v : PyVal) : String :=
  "argument of type " ++ sq ++ tyName v ++ sq ++ " is not iterable"

/-- Python membership test `key in v` for the values a JSON body can
take: key lookup on a dict, element equality on a list, substring test
on a string; on the remaining types the test itself raises `TypeError`,
modelled as `Option.none`. -/
def pyContains (key : String) : PyVal → Option Bool
  | .dict fs => some (fs.lookup key).isSome
  | .list xs => some (xs.any fun v => match v with | .str s => s == key | _ => false)
  | .str s => some (strContains s key)
  | _ => Option.none

/-- Text of the `KeyError` raised by `d[key]` on a dict missing `key`. -/
def keyErrorMsg (key : String) : String := sq ++ key ++ sq

/-- Text of the `TypeError` raised by subscripting a non-subscriptable
value. -/
def notSubscriptableMsg (v : PyVal) : String :=
  sq ++ tyName v ++ sq ++ " object is not subscriptable"

/-- Python subscript `v[key]` with a string key: dict lookup (a missing
key raises `KeyError`), `TypeError` on every other type. -/
def pySubscriptStr (v : PyVal) (key : String) : Except String PyVal :=
  match v with
  | .dict fs =>
    match fs.lookup key with
    | some w => .ok w
    | _ => .error (keyErrorMsg key)
  | .list _ => .error "list indices must be integers or slices, not str"
  | .str _ => .error ("string indices must be integers, not " ++ sq ++ "str" ++ sq)
  | other => .error (notSubscriptableMsg other)

/-- Whether Python slicing `v[:30]` succeeds: it does on strings and
lists, and raises `TypeError` on every other JSON value. -/
def isSliceable : PyVal → Bool
  | .str _ => true
  | .list _ => true
  | _ => false

/-- Text of the `TypeError` raised by `v[:30]` on a non-sliceable value
(for a dict the slice object is unhashable; otherwise the value is not
subscriptable). -/
def sliceErrMsg (v : PyVal) : String :=
  match v with
  | .dict _ => "unhashable type: " ++ sq ++ "slice" ++ sq
  | other => notSubscriptableMsg other

/-- Python slice `v[:30]`, as performed by the handler's logging line
`image_data_b64[:30]`; only success or the fault text matters here. -/
def pySliceHead (v : PyVal) : Except String Unit :=
  if isSliceable v then .ok () else .error (sliceErrMsg v)

/-- One detection entry of the mocked YOLOv8 response. -/
structure Detection where
  label : String
  confidence : ℚ
  box : List Int
deriving DecidableEq

/-- The fixed mock detection list returned by `detect_objects`. -/
def mock_detections : List Detection :=
  [ { label := "button", confidence := 0.95, box := [100, 150, 200, 180] },
    { label := "text_input", confidence := 0.88, box := [300, 250, 450, 280] },
    { label := "scrollbar", confidence := 0.75, box := [780, 50, 795, 500] } ]

/-- Body of a response produced by the handler via `jsonify`. -/
inductive RespBody where
  | detections : List Detection → RespBody
  | error : String → RespBody
deriving DecidableEq

/-- Outcome of one `POST /detect` request: either a response the handler
itself built (status code and JSON body), or a fault that propagated out
of the handler because it was raised outside the `try` block. -/
inductive HandlerResult where
  | response : Nat → RespBody → HandlerResult
  | unhandledFault : String → HandlerResult

/-- The `POST /detect` handler of `app.py` on a parsed JSON body.
Mirrors the source line by line: the membership test
`'screenshot' not in request.json` and the field access
`request.json['screenshot']` run before the `try` block, so a fault in
either propagates; inside the `try` block the only fallible step is the
slice `image_data_b64[:30]` in the logging line, whose fault is caught
and reported as a 500 response carrying the fault's text. -/
def detect_objects (body : PyVal) : HandlerResult :=
  match pyContains "screenshot" body with
  | Option.none => .unhandledFault (containsErrMsg body)
  | some false => .response 400 (.error "No screenshot data provided")
  | some true =>
    match pySubscriptStr body "screenshot" with
    | .error e => .unhandledFault e
    | .ok image_data_b64 =>
      match pySliceHead image_data_b64 with
      | .error e => .response 500 (.error e)
      | .ok _ => .response 200 (.detections mock_detections)

/-! Embedding of `train_yolo.py`. -/

/-- POSIX `os.path.join` for a relative second component, as used by the
script on the machines it targets. -/
def os_path_join (a b : String) : String := a ++ "/" ++ b

/-- Base model file name (`BASE_MODEL_NAME` in `train_yolo.py`). -/
def BASE_MODEL_NAME : String := "yolov8n.pt"

/-- Number of training epochs (`EPOCHS`). -/
def EPOCHS : Nat := 50

/-- Batch size (`BATCH_SIZE`). -/
def BATCH_SIZE : Nat := 8

/-- Training image size (`IMG_SIZE`). -/
def IMG_SIZE : Nat := 640

/-- Project name (`PROJECT_NAME`). -/
def PROJECT_NAME : String := "UI_Element_Detection"

/-- Experiment name (`EXPERIMENT_NAME`). -/
def EXPERIMENT_NAME : String := "run1"

/-- Resolved path of the dataset descriptor (`DATA_YAML_PATH`), a
function of the directory containing the script
(`os.path.dirname(__file__)`). -/
def DATA_YAML_PATH (scriptDir : String) : String :=
  os_path_join (os_path_join (os_path_join (os_path_join scriptDir "..")
    "AutoDesktopApplication") "UI_Element_Dataset") "data.yaml"

/-- Device string chosen by `train_yolo.py` from the accelerator probes:
`torch.cuda.is_available()`, then `torch.backends.mps.is_available()`,
else the processor. -/
def DEVICE (cudaAvailable mpsAvailable : Bool) : String :=
  if cudaAvailable then "cuda" else if mpsAvailable then "mps" else "cpu"

/-- One line printed by `train_model`, as structured data; `render`
gives the exact text of each line. -/
inductive Msg where
  | startBanner : Msg
  | cfgDataYaml : String → Msg
  | cfgBaseModel : String → Msg
  | cfgEpochs : Nat → Msg
  | cfgBatch : Nat → Msg
  | cfgImgSize : Nat → Msg
  | cfgProject : String → Msg
  | cfgExperiment : String → Msg
  | cfgDevice : String → Msg
  | errBaseModelMissing : String → String → Msg
  | errBaseModelHint : Msg
  | errDataYamlMissing : String → Msg
  | errDataYamlHint : Msg
  | loadedBaseModel : String → Msg
  | startTraining : Msg
  | trainingCompleted : Msg
  | resultsSavedTo : String → Msg
  | bestModelSavedAs : String → Msg
  | useBestHint : Msg
  | errTraining : String → Msg
  | checkEnvHint : Msg
  | oomSuggestion : Msg
deriving DecidableEq

/-- Exact text of each printed line, as in `train_yolo.py`. -/
def Msg.render : Msg → String
  | .startBanner => "Starting training with the following configuration:"
  | .cfgDataYaml p => "  Data YAML: " ++ p
  | .cfgBaseModel n => "  Base Model: " ++ n
  | .cfgEpochs n => "  Epochs: " ++ toString n
  | .cfgBatch n => "  Batch Size: " ++ toString n
  | .cfgImgSize n => "  Image Size: " ++ toString n
  | .cfgProject p => "  Project: " ++ p
  | .cfgExperiment e => "  Experiment: " ++ e
  | .cfgDevice d => "  Device: " ++ d
  | .errBaseModelMissing n cwd =>
    "Error: Base model " ++ sq ++ n ++ sq ++
      " not found in the current directory (" ++ cwd ++ ")."
  | .errBaseModelHint =>
    "Please make sure the .pt file is in the same directory as this script, or update BASE_MODEL_NAME."
  | .errDataYamlMissing p => "Error: data.yaml not found at " ++ sq ++ p ++ sq ++ "."
  | .errDataYamlHint => "Please verify the DATA_YAML_PATH variable in this script."
  | .loadedBaseModel n => "Successfully loaded base model: " ++ n
  | .startTraining => "Starting model training..."
  | .trainingCompleted => "Training completed!"
  | .resultsSavedTo d => "Results saved to: " ++ d
  | .bestModelSavedAs p => "The best model is saved as: " ++ p
  | .useBestHint =>
    "You can now use this " ++ sq ++ "best.pt" ++ sq ++ " model in your app.py for inference."
  | .errTraining e => "An error occurred during training: " ++ e
  | .checkEnvHint => "Please check your dataset, configuration, and environment."
  | .oomSuggestion =>
    "Suggestion: Try reducing BATCH_SIZE or IMG_SIZE if you encountered an out-of-memory error."

/-- Environment a run of `train_model` observes: which files exist,
which accelerators the probes report, the working directory and script
directory, and the outcomes of the two delegated library calls
(constructing `YOLO(...)`, and `model.train(...)` which either raises
with a description or returns a results object carrying `save_dir`). -/
structure TrainEnv where
  baseModelExists : Bool
  dataYamlExists : Bool
  cudaAvailable : Bool
  mpsAvailable : Bool
  cwd : String
  scriptDir : String
  loadOutcome : Except String Unit
  trainOutcome : Except String String

/-- The configuration banner printed at the top of every run. -/
def configMsgs (env : TrainEnv) : List Msg :=
  [ .startBanner,
    .cfgDataYaml (DATA_YAML_PATH env.scriptDir),
    .cfgBaseModel BASE_MODEL_NAME,
    .cfgEpochs EPOCHS,
    .cfgBatch BATCH_SIZE,
    .cfgImgSize IMG_SIZE,
    .cfgProject PROJECT_NAME,
    .cfgExperiment EXPERIMENT_NAME,
    .cfgDevice (DEVICE env.cudaAvailable env.mpsAvailable) ]

/-- Python test `"out of memory" in str(e).lower()` from the handler of
the training exception. -/
def hasOOM (e : String) : Bool :=
  strContains (strLower e) "out of memory"

/-- Lines printed by the `except` block of `train_model` for an
exception described by `e`. -/
def exceptionMsgs (e : String) : List Msg :=
  [.errTraining e, .checkEnvHint] ++ (if hasOOM e then [.oomSuggestion] else [])

/-- Result of a run of `train_model`: what it printed, and whether the
delegated training call `model.train(...)` was made. -/
structure TrainResult where
  output : List Msg
  trainInvoked : Bool

/-- The `train_model` function of `train_yolo.py`, mirrored branch by
branch: print the configuration; return after a diagnostic if the base
model file is missing; return after a diagnostic if the dataset
descriptor is missing; otherwise load the model and train inside a
`try` whose `except` block prints the exception's description, a generic
hint, and — when the description mentions memory exhaustion — the
batch-size suggestion. Nothing is re-raised. -/
def train_model (env : TrainEnv) : TrainResult :=
  let head := configMsgs env
  if !env.baseModelExists then
    { output := head ++ [.errBaseModelMissing BASE_MODEL_NAME env.cwd, .errBaseModelHint],
      trainInvoked := false }
  else if !env.dataYamlExists then
    { output := head ++ [.errDataYamlMissing (DATA_YAML_PATH env.scriptDir), .errDataYamlHint],
      trainInvoked := false }
  else
    match env.loadOutcome with
    | .error e => { output := head ++ exceptionMsgs e, trainInvoked := false }
    | .ok _ =>
      match env.trainOutcome with
      | .error e =>
        { output := head ++ [.loadedBaseModel BASE_MODEL_NAME, .startTraining] ++
            exceptionMsgs e,
          trainInvoked := true }
      | .ok saveDir =>
        { output := head ++
            [ .loadedBaseModel BASE_MODEL_NAME, .startTraining, .trainingCompleted,
              .resultsSavedTo saveDir,
              .bestModelSavedAs (os_path_join (os_path_join saveDir "weights") "best.pt"),
              .useBestHint ],
          trainInvoked := true }

/-! Theorems for the endpoint claims. -/

/-- C1: every `POST /detect` request whose JSON body is an object with a
string value (any string, empty or invalid base64 included) under the
field `screenshot` gets status 200 with the fixed three-entry mock
detection list; the response is the same constant for all such bodies,
so it is invariant to the input content. -/
theorem detect_with_string_screenshot_returns_mock
    (fields : List (String × PyVal)) (s : String)
    (h : fields.lookup "screenshot" = some (PyVal.str s)) :
    detect_objects (PyVal.dict fields) =
      HandlerResult.response 200 (RespBody.detections mock_detections) := by
  simp [detect_objects, pyContains, pySubscriptStr, pySliceHead, isSliceable, h]

/-- Witness for C1 at the concrete request body
`{"screenshot": "AAAA"}`. -/
theorem detect_with_string_screenshot_returns_mock_witness :
    detect_objects (PyVal.dict [("screenshot", PyVal.str "AAAA")]) =
      HandlerResult.response 200 (RespBody.detections mock_detections) :=
  detect_with_string_screenshot_returns_mock [("screenshot", PyVal.str "AAAA")] "AAAA" rfl

/-- C2: every `POST /detect` request whose JSON body is an object
without the field `screenshot`, whatever other fields it carries, gets
status 400 with body `{"error": "No screenshot data provided"}`. -/
theorem detect_missing_screenshot_returns_400
    (fields : List (String × PyVal))
    (h : fields.lookup "screenshot" = Option.none) :
    detect_objects (PyVal.dict fields) =
      HandlerResult.response 400 (RespBody.error "No screenshot data provided") := by
  simp [detect_objects, pyContains, h]

/-- Witness for C2 at the concrete body `{"foo": 3}`. -/
theorem detect_missing_screenshot_returns_400_witness :
    detect_objects (PyVal.dict [("foo", PyVal.int 3)]) =
      HandlerResult.response 400 (RespBody.error "No screenshot data provided") :=
  detect_missing_screenshot_returns_400 [("foo", PyVal.int 3)] rfl

/-- C10: a `screenshot` value that does not support slicing (a number,
a boolean, `null`, or an object — any non-string, non-list value) makes
the logging slice `image_data_b64[:30]` raise inside the `try` block, so
the handler returns status 500 with the fault's text as the error body
rather than the fixed detection list. -/
theorem nonsliceable_screenshot_returns_500
    (fields : List (String × PyVal)) (v : PyVal)
    (h1 : fields.lookup "screenshot" = some v)
    (h2 : isSliceable v = false) :
    detect_objects (PyVal.dict fields) =
      HandlerResult.response 500 (RespBody.error (sliceErrMsg v)) := by
  simp [detect_objects, pyContains, pySubscriptStr, pySliceHead, h1, h2]

/-- Witness for C10 at the concrete body `{"screenshot": 5}`. -/
theorem nonsliceable_screenshot_returns_500_witness :
    detect_objects (PyVal.dict [("screenshot", PyVal.int 5)]) =
      HandlerResult.response 500 (RespBody.error (sliceErrMsg (PyVal.int 5))) :=
  nonsliceable_screenshot_returns_500 [("screenshot", PyVal.int 5)] (PyVal.int 5) rfl rfl

/-- C8, counterexample: for the valid JSON body `null`, the membership
test `'screenshot' not in request.json` itself raises `TypeError`
before the `try` block, and the fault propagates out of the handler
instead of being reported as a status-500 `{"error": ...}` response; so
not every internal fault is reported and the claim as stated fails. -/
theorem null_body_fault_escapes :
    detect_objects PyVal.none =
      HandlerResult.unhandledFault
        ("argument of type " ++ sq ++ "NoneType" ++ sq ++ " is not iterable") := rfl

/-- C8, amended: for every object (dict) JSON body, no fault escapes the
handler — the outcome is always one of the three responses the handler
builds itself: 400 when the field is missing, 200 with the fixed mock
list when the field's value is sliceable, and 500 carrying the fault's
text when the slice inside the `try` block raises. -/
theorem dict_body_faults_reported (fields : List (String × PyVal)) :
    detect_objects (PyVal.dict fields) =
        HandlerResult.response 400 (RespBody.error "No screenshot data provided") ∨
      detect_objects (PyVal.dict fields) =
        HandlerResult.response 200 (RespBody.detections mock_detections) ∨
      ∃ v, fields.lookup "screenshot" = some v ∧
        detect_objects (PyVal.dict fields) =
          HandlerResult.response 500 (RespBody.error (sliceErrMsg v)) := by
  cases hl : fields.lookup "screenshot" with
  | none =>
    exact Or.inl (by simp [detect_objects, pyContains, hl])
  | some v =>
    cases hs : isSliceable v with
    | true =>
      exact Or.inr (Or.inl (by
        simp [detect_objects, pyContains, pySubscriptStr, pySliceHead, hl, hs]))
    | false =>
      exact Or.inr (Or.inr ⟨v, rfl, by
        simp [detect_objects, pyContains, pySubscriptStr, pySliceHead, hl, hs]⟩)

/-! Theorems for the training-launcher claims. -/

/-- Environment with both files present and a successful run, used to
exercise the training path. -/
def envOK : TrainEnv :=
  { baseModelExists := true, dataYamlExists := true,
    cudaAvailable := false, mpsAvailable := false,
    cwd := "/work", scriptDir := ".",
    loadOutcome := Except.ok (), trainOutcome := Except.ok "UI_Element_Detection/run1" }

/-- Environment whose delegated training call raises a memory-exhaustion
exception. -/
def envTrainOOM : TrainEnv :=
  { envOK with trainOutcome := Except.error "CUDA out of memory" }

/-- Environment with the base model file missing. -/
def envBaseMissing : TrainEnv :=
  { envOK with baseModelExists := false }

/-- Environment with the dataset descriptor missing. -/
def envDataMissing : TrainEnv :=
  { envOK with dataYamlExists := false }

/-- Environment with both the base model file and the dataset
descriptor missing. -/
def envBothMissing : TrainEnv :=
  { envOK with baseModelExists := false, dataYamlExists := false }

/-- C4: when the base-model file is missing, `train_model` never makes
the delegated training call, prints exactly the configuration banner
followed by the two base-model diagnostics, and returns. -/
theorem base_model_missing_blocks_training
    (env : TrainEnv) (h : env.baseModelExists = false) :
    (train_model env).trainInvoked = false ∧
      (train_model env).output =
        configMsgs env ++ [Msg.errBaseModelMissing BASE_MODEL_NAME env.cwd,
          Msg.errBaseModelHint] := by
  simp [train_model, h]

/-- Witness for C4 at a concrete environment missing only the base
model. -/
theorem base_model_missing_blocks_training_witness :
    (train_model envBaseMissing).trainInvoked = false ∧
      (train_model envBaseMissing).output =
        configMsgs envBaseMissing ++ [Msg.errBaseModelMissing BASE_MODEL_NAME
          envBaseMissing.cwd, Msg.errBaseModelHint] :=
  base_model_missing_blocks_training envBaseMissing rfl

/-- C3, counterexample: the claim requires that a missing dataset
descriptor be reported as the dataset-descriptor condition independently
of base-model presence; but when the base model is also missing, the
run's output contains no dataset-descriptor diagnostic (only the
base-model one), because the base-model check runs first and returns. -/
theorem dataset_missing_report_not_independent :
    Msg.errDataYamlMissing (DATA_YAML_PATH envBothMissing.scriptDir) ∉
        (train_model envBothMissing).output ∧
      Msg.errBaseModelMissing BASE_MODEL_NAME envBothMissing.cwd ∈
        (train_model envBothMissing).output ∧
      (train_model envBothMissing).trainInvoked = false := by
  refine ⟨?_, ?_, rfl⟩ <;> decide

/-- C3, amended: when the dataset descriptor is missing, `train_model`
never makes the delegated training call, whatever the base-model
presence; the dataset-descriptor-missing condition is the one reported
exactly when the base-model file is present (otherwise the earlier
base-model check reports instead). -/
theorem dataset_missing_blocks_training
    (env : TrainEnv) (h : env.dataYamlExists = false) :
    (train_model env).trainInvoked = false ∧
      (env.baseModelExists = true →
        (train_model env).output =
          configMsgs env ++ [Msg.errDataYamlMissing (DATA_YAML_PATH env.scriptDir),
            Msg.errDataYamlHint]) := by
  cases hb : env.baseModelExists <;> simp [train_model, h, hb]

/-- Witness for C3 (amended) at a concrete environment missing only the
dataset descriptor. -/
theorem dataset_missing_blocks_training_witness :
    (train_model envDataMissing).trainInvoked = false ∧
      (train_model envDataMissing).output =
        configMsgs envDataMissing ++ [Msg.errDataYamlMissing
          (DATA_YAML_PATH envDataMissing.scriptDir), Msg.errDataYamlHint] :=
  ⟨(dataset_missing_blocks_training envDataMissing rfl).1,
    (dataset_missing_blocks_training envDataMissing rfl).2 rfl⟩

/-- C5: the device is a deterministic function of the two accelerator
probes: `cuda` whenever the CUDA backend is available, else `mps` when
the Apple-silicon backend is available, else `cpu`. -/
theorem device_selection_deterministic :
    (∀ m, DEVICE true m = "cuda") ∧
      DEVICE false true = "mps" ∧ DEVICE false false = "cpu" :=
  ⟨fun _ => rfl, rfl, rfl⟩

/-- C6: every exception raised by the delegated training call is caught
(`train_model` still returns a result, and the call is recorded as
made); its description is printed, followed by the generic diagnostic;
the memory-exhaustion remediation hint is printed exactly when the
description mentions `out of memory` (case-insensitively). -/
theorem training_exception_handling
    (env : TrainEnv) (e : String)
    (hb : env.baseModelExists = true) (hd : env.dataYamlExists = true)
    (hl : env.loadOutcome = Except.ok ()) (ht : env.trainOutcome = Except.error e) :
    Msg.errTraining e ∈ (train_model env).output ∧
      Msg.checkEnvHint ∈ (train_model env).output ∧
      (train_model env).trainInvoked = true ∧
      (hasOOM e = true → Msg.oomSuggestion ∈ (train_model env).output) ∧
      (hasOOM e = false → Msg.oomSuggestion ∉ (train_model env).output) := by
  cases ho : hasOOM e <;>
    simp [train_model, configMsgs, exceptionMsgs, hb, hd, hl, ht, ho]

/-- Witness for C6 at a concrete environment whose delegated training
call raises `CUDA out of memory`: the description and the remediation
hint are both printed. -/
theorem training_exception_handling_witness :
    Msg.errTraining "CUDA out of memory" ∈ (train_model envTrainOOM).output ∧
      Msg.oomSuggestion ∈ (train_model envTrainOOM).output :=
  ⟨(training_exception_handling envTrainOOM "CUDA out of memory" rfl rfl rfl rfl).1,
    (training_exception_handling envTrainOOM "CUDA out of memory" rfl rfl rfl rfl).2.2.2.1
      (by decide)⟩

/-- C7: the delegated training call happens only after both existence
checks have passed: whenever a run records the call as made, the
base-model file and the dataset descriptor both existed. -/
theorem training_requires_validation
    (env : TrainEnv) (h : (train_model env).trainInvoked = true) :
    env.baseModelExists = true ∧ env.dataYamlExists = true := by
  cases hb : env.baseModelExists with
  | false => exact absurd h (by simp [train_model, hb])
  | true =>
    cases hd : env.dataYamlExists with
    | false => exact absurd h (by simp [train_model, hb, hd])
    | true => exact ⟨rfl, rfl⟩

/-- Witness for C7: a concrete successful run does make the call, and
both files existed. -/
theorem training_requires_validation_witness :
    (train_model envOK).trainInvoked = true ∧
      envOK.baseModelExists = true ∧ envOK.dataYamlExists = true :=
  ⟨rfl, training_requires_validation envOK rfl⟩

/-- C9: the base-model existence check runs before the
dataset-descriptor check and returns on failure: whenever the base model
is missing — in particular when both files are missing — the output is
exactly the banner plus the two base-model diagnostics, so no
dataset-descriptor diagnostic is ever produced. -/
theorem base_check_first
    (env : TrainEnv) (h : env.baseModelExists = false) :
    (train_model env).output =
        configMsgs env ++ [Msg.errBaseModelMissing BASE_MODEL_NAME env.cwd,
          Msg.errBaseModelHint] ∧
      Msg.errDataYamlMissing (DATA_YAML_PATH env.scriptDir) ∉
        (train_model env).output := by
  simp [train_model, configMsgs, h]

/-- Witness for C9 at the concrete environment missing both files. -/
theorem base_check_first_witness :
    (train_model envBothMissing).output =
        configMsgs envBothMissing ++ [Msg.errBaseModelMissing BASE_MODEL_NAME
          envBothMissing.cwd, Msg.errBaseModelHint] ∧
      Msg.errDataYamlMissing (DATA_YAML_PATH envBothMissing.scriptDir) ∉
        (train_model envBothMissing).output :=
  base_check_first envBothMissing rfl

end AutoDesktop
